import Mathlib

/-!
Shallow embedding of the `typeform-rs` client (`src/lib.rs`).

The crate wraps Typeform's REST API: a `Typeform` struct holding a base
URL, a form id and a bearer token, two fetch operations (`responses`,
`responses_after`) that build a URL, issue an authenticated GET and decode
the JSON body, and a serde data model (`Responses`, `Response`, `Metadata`,
`Definition`, `Field`, `Answers`, `Answer`, `AnswerField`, `AnswerType`,
`Choice`, `Choices`, `Payment`, `Calculated`).

JSON values are embedded as an inductive type; JSON numbers are modeled as
integers (all numeric fields of the model are integer-typed: `u16`, `u8`,
`i32`), objects as ordered key/value lists where a lookup returns the first
binding of a key. Each `#[derive(Deserialize)]` struct becomes a Lean
structure together with a `deserialize` function mirroring serde's derived
semantics: a struct decodes only from a JSON object; a field of a
non-`Option` type is required (missing key is an error, and a value of the
wrong shape is an error); a field of type `Option<T>` decodes a missing key
or an explicit `null` to `none`; unknown keys are skipped. The HTTP side
is embedded as a function of an abstract world assigning to each URL the
outcome of request building, sending, and the received body.
-/

namespace TypeformRs

/-- JSON values. Numbers are modeled as integers (sufficient for the
integer-typed numeric fields of this crate's model); objects are ordered
key/value lists and a field lookup returns the first binding of a key. -/
inductive Json where
  | null : Json
  | bool (b : Bool) : Json
  | num (n : Int) : Json
  | str (s : String) : Json
  | arr (elems : List Json) : Json
  | obj (fields : List (String × Json)) : Json

/-- Sequencing of decode steps: propagate the first error (serde's derived
deserializers stop at the first failing field). This is the `Except` bind,
written out so that proofs can unfold it by `rfl`/`simp`. -/
def andThen (x : Except String α) (f : α → Except String β) : Except String β :=
  match x with
  | .error e => .error e
  | .ok a => f a

theorem andThen_ok (a : α) (f : α → Except String β) : andThen (.ok a) f = f a := rfl

theorem andThen_error (e : String) (f : α → Except String β) :
    andThen (.error e) f = .error e := rfl

/-- serde: a Rust `String` field decodes from a JSON string only. -/
def decodeString : Json → Except String String
  | .str s => .ok s
  | _ => .error "invalid type: expected a string"

/-- serde: a Rust `bool` field decodes from a JSON boolean only. -/
def decodeBool : Json → Except String Bool
  | .bool b => .ok b
  | _ => .error "invalid type: expected a boolean"

/-- serde: a `u16` field decodes from a JSON number in `0..=65535` only. -/
def decodeU16 : Json → Except String Nat
  | .num n => if 0 ≤ n ∧ n ≤ 65535 then .ok n.toNat else .error "invalid value: out of range of u16"
  | _ => .error "invalid type: expected u16"

/-- serde: a `u8` field decodes from a JSON number in `0..=255` only. -/
def decodeU8 : Json → Except String Nat
  | .num n => if 0 ≤ n ∧ n ≤ 255 then .ok n.toNat else .error "invalid value: out of range of u8"
  | _ => .error "invalid type: expected u8"

/-- serde: an `i32` field decodes from a JSON number in the `i32` range only. -/
def decodeI32 : Json → Except String Int
  | .num n =>
    if -2147483648 ≤ n ∧ n ≤ 2147483647 then .ok n
    else .error "invalid value: out of range of i32"
  | _ => .error "invalid type: expected i32"

/-- serde: the elements of a JSON array are decoded one by one in order,
propagating the first element error; on success the results keep the
array's order. -/
def decodeList (d : Json → Except String α) : List Json → Except String (List α)
  | [] => .ok []
  | j :: js =>
    match d j with
    | .error e => .error e
    | .ok a =>
      match decodeList d js with
      | .error e => .error e
      | .ok as => .ok (a :: as)

/-- serde: a `Vec<T>` field decodes from a JSON array only. -/
def decodeArr (d : Json → Except String α) : Json → Except String (List α)
  | .arr es => decodeList d es
  | _ => .error "invalid type: expected an array"

/-- A required struct field (non-`Option` Rust type): the key must be
present and its value must decode. -/
def reqField (l : List (String × Json)) (k : String) (d : Json → Except String α) :
    Except String α :=
  match l.lookup k with
  | some j => d j
  | none => .error ("missing field " ++ k)

/-- An `Option<T>` struct field: a missing key or an explicit `null`
decodes to `none`; any other value must decode under `d`. -/
def optField (l : List (String × Json)) (k : String) (d : Json → Except String α) :
    Except String (Option α) :=
  match l.lookup k with
  | none => .ok none
  | some .null => .ok none
  | some j =>
    match d j with
    | .ok a => .ok (some a)
    | .error e => .error e

/-- Rust `struct Metadata` (src/lib.rs:111-119): `user_agent`, `referer`,
`network_id` required strings, `platform` optional. -/
structure Metadata where
  user_agent : String
  platform : Option String
  referer : String
  network_id : String
deriving DecidableEq

def Metadata.deserialize : Json → Except String Metadata
  | .obj l =>
    andThen (reqField l "user_agent" decodeString) fun user_agent =>
    andThen (optField l "platform" decodeString) fun platform =>
    andThen (reqField l "referer" decodeString) fun referer =>
    andThen (reqField l "network_id" decodeString) fun network_id =>
    .ok ⟨user_agent, platform, referer, network_id⟩
  | _ => .error "invalid type: expected struct Metadata"

/-- Rust `struct Field` (src/lib.rs:129-135). The Rust field is named `_type`
and carries no `#[serde(rename = "type")]` attribute (unlike `Answer` and
`AnswerField`), so the derived deserializer requires the JSON key to be
literally `_type`. -/
structure Field where
  id : String
  _type : String
  title : String
  description : String
deriving DecidableEq

def Field.deserialize : Json → Except String Field
  | .obj l =>
    andThen (reqField l "id" decodeString) fun id =>
    andThen (reqField l "_type" decodeString) fun _type =>
    andThen (reqField l "title" decodeString) fun title =>
    andThen (reqField l "description" decodeString) fun description =>
    .ok ⟨id, _type, title, description⟩
  | _ => .error "invalid type: expected struct Field"

/-- Rust `type Fields = Vec<Field>` (src/lib.rs:127). -/
def Fields := List Field
deriving DecidableEq

/-- Rust `struct Definition` (src/lib.rs:122-125): one required field `fields`. -/
structure Definition where
  fields : Fields
deriving DecidableEq

def Definition.deserialize : Json → Except String Definition
  | .obj l =>
    andThen (reqField l "fields" (decodeArr Field.deserialize)) fun fields =>
    .ok ⟨fields⟩
  | _ => .error "invalid type: expected struct Definition"

/-- Rust `struct AnswerField` (src/lib.rs:161-173): `id` required, `_type`
renamed to JSON key `type`, `_ref` renamed to JSON key `ref`, `title`
optional. -/
structure AnswerField where
  id : String
  _type : String
  _ref : String
  title : Option String
deriving DecidableEq

def AnswerField.deserialize : Json → Except String AnswerField
  | .obj l =>
    andThen (reqField l "id" decodeString) fun id =>
    andThen (reqField l "type" decodeString) fun _type =>
    andThen (reqField l "ref" decodeString) fun _ref =>
    andThen (optField l "title" decodeString) fun title =>
    .ok ⟨id, _type, _ref, title⟩
  | _ => .error "invalid type: expected struct AnswerField"

/-- Rust `enum AnswerType` (src/lib.rs:175-189), `#[serde(rename_all =
"snake_case")]`: decodes from the snake_case variant name as a JSON
string. -/
inductive AnswerType where
  | choice | choices | date | email | url | fileUrl | number
  | boolean | text | payment | phoneNumber
deriving DecidableEq

def AnswerType.deserialize : Json → Except String AnswerType
  | .str s =>
    match s with
    | "choice" => .ok .choice
    | "choices" => .ok .choices
    | "date" => .ok .date
    | "email" => .ok .email
    | "url" => .ok .url
    | "file_url" => .ok .fileUrl
    | "number" => .ok .number
    | "boolean" => .ok .boolean
    | "text" => .ok .text
    | "payment" => .ok .payment
    | "phone_number" => .ok .phoneNumber
    | _ => .error "unknown variant of AnswerType"
  | _ => .error "invalid type: expected string for enum AnswerType"

/-- Rust `struct Choice` (src/lib.rs:191-195). -/
structure Choice where
  label : String
  other : Option String
deriving DecidableEq

def Choice.deserialize : Json → Except String Choice
  | .obj l =>
    andThen (reqField l "label" decodeString) fun label =>
    andThen (optField l "other" decodeString) fun other =>
    .ok ⟨label, other⟩
  | _ => .error "invalid type: expected struct Choice"

/-- Rust `struct Choices` (src/lib.rs:199-203); `type Labels = Vec<String>`. -/
structure Choices where
  labels : List String
  other : Option String
deriving DecidableEq

def Choices.deserialize : Json → Except String Choices
  | .obj l =>
    andThen (reqField l "labels" (decodeArr decodeString)) fun labels =>
    andThen (optField l "other" decodeString) fun other =>
    .ok ⟨labels, other⟩
  | _ => .error "invalid type: expected struct Choices"

/-- Rust `struct Payment` (src/lib.rs:205-210). -/
structure Payment where
  amount : String
  last4 : String
  name : String
deriving DecidableEq

def Payment.deserialize : Json → Except String Payment
  | .obj l =>
    andThen (reqField l "amount" decodeString) fun amount =>
    andThen (reqField l "last4" decodeString) fun last4 =>
    andThen (reqField l "name" decodeString) fun name =>
    .ok ⟨amount, last4, name⟩
  | _ => .error "invalid type: expected struct Payment"

/-- Rust `struct Calculated` (src/lib.rs:212-215): one required `i32` field
`score`. -/
structure Calculated where
  score : Int
deriving DecidableEq

def Calculated.deserialize : Json → Except String Calculated
  | .obj l =>
    andThen (reqField l "score" decodeI32) fun score =>
    .ok ⟨score⟩
  | _ => .error "invalid type: expected struct Calculated"

/-- Rust `struct Answer` (src/lib.rs:140-159): required `field` and `type`
(the Rust field `_type` is renamed to JSON key `type`), then eleven
independent optional payload fields. -/
structure Answer where
  field : AnswerField
  _type : AnswerType
  choice : Option Choice
  choices : Option Choices
  date : Option String
  email : Option String
  file_url : Option String
  number : Option Int
  boolean : Option Bool
  text : Option String
  url : Option String
  payment : Option Payment
  phone_number : Option String
deriving DecidableEq

def Answer.deserialize : Json → Except String Answer
  | .obj l =>
    andThen (reqField l "field" AnswerField.deserialize) fun field =>
    andThen (reqField l "type" AnswerType.deserialize) fun _type =>
    andThen (optField l "choice" Choice.deserialize) fun choice =>
    andThen (optField l "choices" Choices.deserialize) fun choices =>
    andThen (optField l "date" decodeString) fun date =>
    andThen (optField l "email" decodeString) fun email =>
    andThen (optField l "file_url" decodeString) fun file_url =>
    andThen (optField l "number" decodeI32) fun number =>
    andThen (optField l "boolean" decodeBool) fun boolean =>
    andThen (optField l "text" decodeString) fun text =>
    andThen (optField l "url" decodeString) fun url =>
    andThen (optField l "payment" Payment.deserialize) fun payment =>
    andThen (optField l "phone_number" decodeString) fun phone_number =>
    .ok ⟨field, _type, choice, choices, date, email, file_url, number,
         boolean, text, url, payment, phone_number⟩
  | _ => .error "invalid type: expected struct Answer"

/-- Rust `struct Answers(Vec<Answer>)` (src/lib.rs:137-138): a serde newtype
struct deserializes transparently as its inner value, here a JSON array of
answers. -/
def Answers := List Answer
deriving DecidableEq

def Answers.deserialize : Json → Except String Answers :=
  decodeArr Answer.deserialize

/-- Rust `struct Response` (src/lib.rs:92-108): `token`, `landed_at`,
`submitted_at`, `metadata`, `calculated` required; `response_id`,
`definition`, `answers` optional. (`#[serde(rename_all = "snake_case")]`
is a no-op here since all field names are already snake_case.) -/
structure Response where
  token : String
  response_id : Option String
  landed_at : String
  submitted_at : String
  metadata : Metadata
  definition : Option Definition
  answers : Option Answers
  calculated : Calculated
deriving DecidableEq

def Response.deserialize : Json → Except String Response
  | .obj l =>
    andThen (reqField l "token" decodeString) fun token =>
    andThen (optField l "response_id" decodeString) fun response_id =>
    andThen (reqField l "landed_at" decodeString) fun landed_at =>
    andThen (reqField l "submitted_at" decodeString) fun submitted_at =>
    andThen (reqField l "metadata" Metadata.deserialize) fun metadata =>
    andThen (optField l "definition" Definition.deserialize) fun definition =>
    andThen (optField l "answers" Answers.deserialize) fun answers =>
    andThen (reqField l "calculated" Calculated.deserialize) fun calculated =>
    .ok ⟨token, response_id, landed_at, submitted_at, metadata, definition,
         answers, calculated⟩
  | _ => .error "invalid type: expected struct Response"

/-- Rust `struct Responses` (src/lib.rs:81-89): `total_items: Option<u16>`,
`page_count: Option<u8>`, `items: Vec<Response>` (required). The `u16` and
`u8` ranges are enforced at decode time; in the structure the counts are
plain naturals. -/
structure Responses where
  total_items : Option Nat
  page_count : Option Nat
  items : List Response
deriving DecidableEq

def Responses.deserialize : Json → Except String Responses
  | .obj l =>
    andThen (optField l "total_items" decodeU16) fun total_items =>
    andThen (optField l "page_count" decodeU8) fun page_count =>
    andThen (reqField l "items" (decodeArr Response.deserialize)) fun items =>
    .ok ⟨total_items, page_count, items⟩
  | _ => .error "invalid type: expected struct Responses"

/-! ## The client (`Typeform`, src/lib.rs:25-78) -/

/-- Rust's `str::replace` on character lists: scan the source left to
right; at the first position where the pattern is a prefix, emit the
replacement, consume the matched characters and continue scanning after
them (matches do not overlap and the replacement is never rescanned).
The recursion is bounded by a fuel of one unit per source character, which
suffices because every step consumes at least one source character; for the
nonempty patterns used in this crate this is exactly Rust's semantics. -/
def replaceListAux (pat repl : List Char) : Nat → List Char → List Char
  | _, [] => []
  | 0, src => src
  | fuel + 1, c :: rest =>
    if pat.isPrefixOf (c :: rest) then
      repl ++ replaceListAux pat repl fuel (List.drop (pat.length - 1) rest)
    else
      c :: replaceListAux pat repl fuel rest

/-- Rust's `s.replace(pat, repl)`, on the underlying character lists. -/
def rustReplace (s pat repl : String) : String :=
  ⟨replaceListAux pat.data repl.data s.data.length s.data⟩

/-- Constant `DEFAULT_TYPEFORM_URL` (src/lib.rs:25). -/
def DEFAULT_TYPEFORM_URL : String := "https://api.typeform.com"

/-- Constant `GET_FORM_RESPONSES_PATH` (src/lib.rs:26). -/
def GET_FORM_RESPONSES_PATH : String := "/forms/{form_id}/responses"

/-- Rust `struct Typeform` (src/lib.rs:29-34). -/
structure Typeform where
  url : String
  form_id : String
  token : String
deriving DecidableEq

/-- Constructor `Typeform::new` (src/lib.rs:38-44). -/
def Typeform.new (form_id token : String) : Typeform :=
  ⟨DEFAULT_TYPEFORM_URL, form_id, token⟩

/-- The URL `responses` issues its GET to (src/lib.rs:48-52):
`format!("{}{}", self.url, GET_FORM_RESPONSES_PATH.replace("{form_id}", &self.form_id))`. -/
def Typeform.responsesUrl (t : Typeform) : String :=
  t.url ++ rustReplace GET_FORM_RESPONSES_PATH "{form_id}" t.form_id

/-- The URL `responses_after` issues its GET to (src/lib.rs:64-69):
the base URL and path followed by `?after={token}&page_size=1`. -/
def Typeform.responsesAfterUrl (t : Typeform) (token : String) : String :=
  t.url ++ rustReplace GET_FORM_RESPONSES_PATH "{form_id}" t.form_id
    ++ "?after=" ++ token ++ "&page_size=1"

/-- The `Authorization` header value sent with both requests
(src/lib.rs:53,70): `format!("Bearer {}", &self.token)`. -/
def Typeform.authHeader (t : Typeform) : String :=
  "Bearer " ++ t.token

/-- Abstract model of the HTTP environment one fetch call runs against,
keyed by the request URL: whether building the request fails (and with
which underlying message), whether sending fails, and the received body —
`none` stands for a body that is not valid JSON, in which case `parseMsg`
is the JSON parser's error text. The `Authorization` header carries no
information the fetch result depends on beyond the configured token, so it
is not part of the world's key. -/
structure HttpWorld where
  buildError : String → Option String
  sendError : String → Option String
  body : String → Option Json
  parseMsg : String → String

/-- The result of receiving and JSON-decoding the body at `url`:
an invalid body fails with the parser's message, a valid one is
deserialized as `Responses` (isahc's `.json()`). -/
def bodyResult (w : HttpWorld) (url : String) : Except String Responses :=
  match w.body url with
  | none => .error (w.parseMsg url)
  | some j => Responses.deserialize j

/-- The shared fetch pipeline of `responses` and `responses_after`
(src/lib.rs:47-60, 63-77): build the request, send it, decode the body;
each stage's failure is mapped by `map_err` onto a `String` with a fixed
stage-identifying prefix and returned immediately by `?`. -/
def fetch (w : HttpWorld) (url : String) : Except String Responses :=
  match w.buildError url with
  | some e => .error ("Failed to build a request: " ++ e)
  | none =>
    match w.sendError url with
    | some e => .error ("Failed to send get request: " ++ e)
    | none =>
      match bodyResult w url with
      | .error e => .error ("Failed to deserialize a response: " ++ e)
      | .ok r => .ok r

/-- Operation `Typeform::responses` (src/lib.rs:47-60). -/
def Typeform.responses (t : Typeform) (w : HttpWorld) : Except String Responses :=
  fetch w t.responsesUrl

/-- Operation `Typeform::responses_after` (src/lib.rs:63-77). -/
def Typeform.responses_after (t : Typeform) (token : String) (w : HttpWorld) :
    Except String Responses :=
  fetch w (t.responsesAfterUrl token)

/-- The three stages of §7's error taxonomy. -/
inductive ErrorKind where
  | requestBuild | transport | decode
deriving DecidableEq

/-- Recover the stage from a returned error message by its fixed prefix:
the three prefixes produced by the two fetch operations are mutually
exclusive, so this classification is unambiguous. -/
def errorKind (e : String) : Option ErrorKind :=
  if "Failed to build a request: ".data.isPrefixOf e.data then some .requestBuild
  else if "Failed to send get request: ".data.isPrefixOf e.data then some .transport
  else if "Failed to deserialize a response: ".data.isPrefixOf e.data then some .decode
  else none

/-- The first stage of the pipeline that fails at `url` in world `w`
(`none` when all three stages succeed). -/
def firstFailingStage (w : HttpWorld) (url : String) : Option ErrorKind :=
  match w.buildError url with
  | some _ => some .requestBuild
  | none =>
    match w.sendError url with
    | some _ => some .transport
    | none =>
      match bodyResult w url with
      | .error _ => some .decode
      | .ok _ => none

/-! Helper lemmas about strings and the template substitution. -/

theorem strAppend_assoc (a b c : String) : a ++ b ++ c = a ++ (b ++ c) := by
  obtain ⟨a⟩ := a
  obtain ⟨b⟩ := b
  obtain ⟨c⟩ := c
  exact congrArg String.mk (List.append_assoc a b c)

/-- Substituting the form id into the path template yields exactly
`/forms/` ++ id ++ `/responses`: the template contains one occurrence of
the placeholder and `replace` scans only the template, never the inserted
replacement. -/
theorem replace_form_id (id : String) :
    rustReplace GET_FORM_RESPONSES_PATH "{form_id}" id = "/forms/" ++ id ++ "/responses" := rfl

/-- C4: for every form identifier, `fetch_responses` issues its GET request
to exactly the URL obtained by concatenating the base URL with `/forms/`,
the form identifier, and `/responses`; in particular for form id `abc123`
the URL is `{base_url}/forms/abc123/responses`. -/
theorem responses_url_is_concat (t : Typeform) :
    t.responsesUrl = t.url ++ "/forms/" ++ t.form_id ++ "/responses"
    ∧ (∀ w : HttpWorld, t.responses w = fetch w (t.url ++ "/forms/" ++ t.form_id ++ "/responses"))
    ∧ (Typeform.new "abc123" "secret").responsesUrl
        = "https://api.typeform.com/forms/abc123/responses" := by
  have h : t.responsesUrl = t.url ++ "/forms/" ++ t.form_id ++ "/responses" := by
    simp only [Typeform.responsesUrl, replace_form_id, strAppend_assoc]
  exact ⟨h, fun w => by simp only [Typeform.responses, h], rfl⟩

/-- C5: for every cursor token, `fetch_responses_after` issues its GET
request to exactly the base-case URL with the query string
`?after={cursor_token}&page_size=1` appended; for cursor `tok_xyz` the URL
is `{base_url}/forms/{form_id}/responses?after=tok_xyz&page_size=1`. -/
theorem responses_after_url_appends_query (t : Typeform) (tok : String) :
    t.responsesAfterUrl tok = t.responsesUrl ++ "?after=" ++ tok ++ "&page_size=1"
    ∧ (∀ w : HttpWorld,
        t.responses_after tok w = fetch w (t.responsesUrl ++ "?after=" ++ tok ++ "&page_size=1"))
    ∧ (Typeform.new "abc123" "secret").responsesAfterUrl "tok_xyz"
        = "https://api.typeform.com/forms/abc123/responses?after=tok_xyz&page_size=1" :=
  ⟨rfl, fun _ => rfl, rfl⟩

/-- C10: URL construction performs no percent-encoding or escaping: for
every base URL, form identifier and cursor token — including ones
containing `/`, `?`, `&` or spaces — the request URL is the plain string
concatenation of the base URL, the path template pieces, and these values,
inserted verbatim. -/
theorem urls_are_plain_concatenation :
    (∀ u fid tk tok : String,
      (Typeform.mk u fid tk).responsesUrl = u ++ "/forms/" ++ fid ++ "/responses"
      ∧ (Typeform.mk u fid tk).responsesAfterUrl tok
          = u ++ "/forms/" ++ fid ++ "/responses" ++ "?after=" ++ tok ++ "&page_size=1")
    ∧ (Typeform.new "a/b?c d&e" "s").responsesUrl
        = "https://api.typeform.com/forms/a/b?c d&e/responses"
    ∧ (Typeform.new "f" "s").responsesAfterUrl "cur?sor&x / y"
        = "https://api.typeform.com/forms/f/responses?after=cur?sor&x / y&page_size=1" := by
  refine ⟨fun u fid tk tok => ⟨?_, ?_⟩, rfl, rfl⟩
  · simp only [Typeform.responsesUrl, replace_form_id, strAppend_assoc]
  · simp only [Typeform.responsesAfterUrl, replace_form_id, strAppend_assoc]

/-- C1 (the code side of the claim): a Definition field JSON object
carrying exactly the four string-valued keys `id`, `type`, `title`,
`description` does NOT decode: the Rust struct field is named `_type` and,
unlike its siblings in `Answer` and `AnswerField`, carries no
`#[serde(rename = "type")]`, so the derived deserializer demands the JSON
key `_type` and reports `type` -carrying objects as missing that field.
With the key spelled `_type` the same object decodes. -/
theorem field_decode_requires_underscore_type_key :
    Field.deserialize (Json.obj [("id", Json.str "f1"), ("type", Json.str "short_text"),
        ("title", Json.str "Q"), ("description", Json.str "D")])
      = Except.error "missing field _type"
    ∧ Field.deserialize (Json.obj [("id", Json.str "f1"), ("_type", Json.str "short_text"),
        ("title", Json.str "Q"), ("description", Json.str "D")])
      = Except.ok ⟨"f1", "short_text", "Q", "D"⟩ := ⟨rfl, rfl⟩

/-! Classification of returned error messages by their stage prefix. -/

theorem errorKind_build (c : String) :
    errorKind ("Failed to build a request: " ++ c) = some ErrorKind.requestBuild := by
  simp [errorKind, List.isPrefixOf]

theorem errorKind_send (c : String) :
    errorKind ("Failed to send get request: " ++ c) = some ErrorKind.transport := by
  simp [errorKind, List.isPrefixOf]

theorem errorKind_decode (c : String) :
    errorKind ("Failed to deserialize a response: " ++ c) = some ErrorKind.decode := by
  simp [errorKind, List.isPrefixOf]

/-- Every error value the fetch pipeline returns carries the message prefix
of the first failing stage — the three prefixes are mutually exclusive, so
`errorKind` recovers the stage unambiguously — and when no stage fails the
pipeline returns a success value. -/
theorem fetch_error_classified (w : HttpWorld) (url : String) :
    (∀ e, fetch w url = .error e →
      ∃ k, firstFailingStage w url = some k ∧ errorKind e = some k)
    ∧ (firstFailingStage w url = none → ∃ r, fetch w url = .ok r) := by
  unfold fetch firstFailingStage
  cases hb : w.buildError url with
  | some e0 =>
    constructor
    · intro e he
      simp only [Except.error.injEq] at he
      exact ⟨ErrorKind.requestBuild, rfl, he ▸ errorKind_build e0⟩
    · intro hn
      simp at hn
  | none =>
    cases hs : w.sendError url with
    | some e1 =>
      constructor
      · intro e he
        simp only [Except.error.injEq] at he
        exact ⟨ErrorKind.transport, rfl, he ▸ errorKind_send e1⟩
      · intro hn
        simp at hn
    | none =>
      cases hd : bodyResult w url with
      | error e2 =>
        constructor
        · intro e he
          simp only [Except.error.injEq] at he
          exact ⟨ErrorKind.decode, rfl, he ▸ errorKind_decode e2⟩
        · intro hn
          simp at hn
      | ok r =>
        constructor
        · intro e he
          simp at he
        · intro _
          exact ⟨r, rfl⟩

/-- C2: every failure of `responses` and of `responses_after` is returned
immediately to the caller as an error value of exactly one of three kinds
— request build, transport, decode — identified by the mutually exclusive
message prefix of the stage at which the failure occurred (§7's
RequestBuildError / TransportError / DecodeError taxonomy), so the caller
can recover the kind by matching on the prefix (`errorKind`); nothing is
retried or recovered internally: when no stage fails the call succeeds. -/
theorem fetch_errors_are_stage_typed (t : Typeform) (tok : String) (w : HttpWorld) :
    (∀ e, t.responses w = .error e →
      ∃ k, firstFailingStage w t.responsesUrl = some k ∧ errorKind e = some k)
    ∧ (firstFailingStage w t.responsesUrl = none → ∃ r, t.responses w = .ok r)
    ∧ (∀ e, t.responses_after tok w = .error e →
      ∃ k, firstFailingStage w (t.responsesAfterUrl tok) = some k ∧ errorKind e = some k)
    ∧ (firstFailingStage w (t.responsesAfterUrl tok) = none →
        ∃ r, t.responses_after tok w = .ok r) :=
  ⟨(fetch_error_classified w t.responsesUrl).1,
   (fetch_error_classified w t.responsesUrl).2,
   (fetch_error_classified w (t.responsesAfterUrl tok)).1,
   (fetch_error_classified w (t.responsesAfterUrl tok)).2⟩

/-- Witness for C2: a concrete transport failure is classified as the
transport kind. -/
theorem fetch_errors_are_stage_typed_witness :
    ∃ k, firstFailingStage
          ⟨fun _ => none, fun _ => some "connection refused", fun _ => none, fun _ => "x"⟩
          ((Typeform.new "f1" "s").responsesUrl) = some k
      ∧ errorKind "Failed to send get request: connection refused" = some k :=
  (fetch_errors_are_stage_typed (Typeform.new "f1" "s") "tk"
      ⟨fun _ => none, fun _ => some "connection refused", fun _ => none, fun _ => "x"⟩).1
    "Failed to send get request: connection refused" rfl

/-- C3: a response body that is not valid JSON surfaces as the
decode-stage error (carrying the parser's message), a body that is valid
JSON but whose document fails to deserialize surfaces the deserializer's
error through the same decode-stage prefix, and a Response Record object
missing the required key `token` fails to deserialize with a missing-field
error — the decoder is a total function into `Except`, so it can neither
panic nor return a partially-populated record. -/
theorem malformed_body_is_decode_error :
    (∀ (t : Typeform) (w : HttpWorld),
      w.buildError t.responsesUrl = none → w.sendError t.responsesUrl = none →
      w.body t.responsesUrl = none →
      t.responses w
          = .error ("Failed to deserialize a response: " ++ w.parseMsg t.responsesUrl)
      ∧ errorKind ("Failed to deserialize a response: " ++ w.parseMsg t.responsesUrl)
          = some ErrorKind.decode)
    ∧ (∀ (t : Typeform) (w : HttpWorld) (j : Json) (e : String),
      w.buildError t.responsesUrl = none → w.sendError t.responsesUrl = none →
      w.body t.responsesUrl = some j → Responses.deserialize j = .error e →
      t.responses w = .error ("Failed to deserialize a response: " ++ e))
    ∧ (∀ (l : List (String × Json)),
      l.lookup "token" = none →
      Response.deserialize (Json.obj l) = .error "missing field token") := by
  refine ⟨fun t w hb hs hbody => ⟨?_, errorKind_decode _⟩,
          fun t w j e hb hs hbody hdec => ?_, fun l htok => ?_⟩
  · simp only [Typeform.responses, fetch, bodyResult, hb, hs, hbody]
  · simp only [Typeform.responses, fetch, bodyResult, hb, hs, hbody, hdec]
  · simp only [Response.deserialize, reqField, htok, andThen_error]
    rfl

/-- Witness for C3: a concrete unparseable body yields the decode-stage
error, and a concrete record without `token` fails to decode. -/
theorem malformed_body_is_decode_error_witness :
    ((Typeform.new "f1" "s").responses
        ⟨fun _ => none, fun _ => none, fun _ => none, fun _ => "expected value at line 1"⟩
      = .error ("Failed to deserialize a response: " ++ "expected value at line 1"))
    ∧ Response.deserialize (Json.obj [("landed_at", Json.str "L")])
        = .error "missing field token" :=
  ⟨((malformed_body_is_decode_error.1 (Typeform.new "f1" "s")
      ⟨fun _ => none, fun _ => none, fun _ => none, fun _ => "expected value at line 1"⟩
      rfl rfl rfl).1),
   malformed_body_is_decode_error.2.2 [("landed_at", Json.str "L")] rfl⟩

/-! Field-decoding helper lemmas. -/

theorem reqField_some {l : List (String × Json)} {k : String} {j : Json}
    {d : Json → Except String α} (h : l.lookup k = some j) :
    reqField l k d = d j := by
  simp only [reqField, h]

theorem optField_absent {l : List (String × Json)} {k : String}
    {d : Json → Except String α} (h : l.lookup k = none) :
    optField l k d = .ok none := by
  simp only [optField, h]

/-- C6: omitting any or all of the optional keys never causes failure. A
Response Record JSON object whose required fields decode and which lacks
the key `definition` (respectively `answers`) — the other optional key
decoding to an arbitrary result — decodes successfully with the missing
field resolved to `none`; likewise a Paged Collection object whose
`items` decode and which lacks `total_items` (respectively `page_count`)
decodes successfully with the missing count resolved to `none`. Each
conjunct settles one missing key on its own; a document lacking several
of the keys is covered by instantiating the sibling key's decode
hypothesis with `optField_absent`, so every omission subset is settled. -/
theorem optional_fields_omitted_decode_to_none :
    (∀ (l : List (String × Json)) (tk la sa : String) (rid : Option String)
        (md : Metadata) (cc : Calculated) (ans : Option Answers),
      reqField l "token" decodeString = .ok tk →
      optField l "response_id" decodeString = .ok rid →
      reqField l "landed_at" decodeString = .ok la →
      reqField l "submitted_at" decodeString = .ok sa →
      reqField l "metadata" Metadata.deserialize = .ok md →
      l.lookup "definition" = none →
      optField l "answers" Answers.deserialize = .ok ans →
      reqField l "calculated" Calculated.deserialize = .ok cc →
      Response.deserialize (Json.obj l) = .ok ⟨tk, rid, la, sa, md, none, ans, cc⟩)
    ∧ (∀ (l : List (String × Json)) (tk la sa : String) (rid : Option String)
        (md : Metadata) (cc : Calculated) (df : Option Definition),
      reqField l "token" decodeString = .ok tk →
      optField l "response_id" decodeString = .ok rid →
      reqField l "landed_at" decodeString = .ok la →
      reqField l "submitted_at" decodeString = .ok sa →
      reqField l "metadata" Metadata.deserialize = .ok md →
      optField l "definition" Definition.deserialize = .ok df →
      l.lookup "answers" = none →
      reqField l "calculated" Calculated.deserialize = .ok cc →
      Response.deserialize (Json.obj l) = .ok ⟨tk, rid, la, sa, md, df, none, cc⟩)
    ∧ (∀ (m : List (String × Json)) (pc : Option Nat) (rs : List Response),
      m.lookup "total_items" = none →
      optField m "page_count" decodeU8 = .ok pc →
      reqField m "items" (decodeArr Response.deserialize) = .ok rs →
      Responses.deserialize (Json.obj m) = .ok ⟨none, pc, rs⟩)
    ∧ (∀ (m : List (String × Json)) (ti : Option Nat) (rs : List Response),
      optField m "total_items" decodeU16 = .ok ti →
      m.lookup "page_count" = none →
      reqField m "items" (decodeArr Response.deserialize) = .ok rs →
      Responses.deserialize (Json.obj m) = .ok ⟨ti, none, rs⟩) := by
  refine ⟨?_, ?_, ?_, ?_⟩
  · intro l tk la sa rid md cc ans h1 h2 h3 h4 h5 hdef hans h6
    simp only [Response.deserialize, h1, h2, h3, h4, h5, h6, hans,
      optField_absent hdef, andThen_ok]
  · intro l tk la sa rid md cc df h1 h2 h3 h4 h5 hdef hans h6
    simp only [Response.deserialize, h1, h2, h3, h4, h5, h6, hdef,
      optField_absent hans, andThen_ok]
  · intro m pc rs hti hpc hitems
    simp only [Responses.deserialize, hpc, optField_absent hti, hitems, andThen_ok]
  · intro m ti rs hti hpc hitems
    simp only [Responses.deserialize, hti, optField_absent hpc, hitems, andThen_ok]

/-- Witness for C6: a concrete record lacking only `definition` (its
`answers` present) and one lacking only `answers` (its `definition`
present) each decode with exactly the missing field absent, and concrete
collections lacking only `total_items` (respectively only `page_count`)
decode with exactly the missing count absent. -/
theorem optional_fields_omitted_decode_to_none_witness :
    Response.deserialize (Json.obj [("token", Json.str "tk1"),
        ("landed_at", Json.str "2021-01-01T00:00:00Z"),
        ("submitted_at", Json.str "2021-01-01T00:01:00Z"),
        ("metadata", Json.obj [("user_agent", Json.str "ua"), ("referer", Json.str "ref"),
          ("network_id", Json.str "nid")]),
        ("answers", Json.arr []),
        ("calculated", Json.obj [("score", Json.num 2)])])
      = .ok ⟨"tk1", none, "2021-01-01T00:00:00Z", "2021-01-01T00:01:00Z",
             ⟨"ua", none, "ref", "nid"⟩, none, some [], ⟨2⟩⟩
    ∧ Response.deserialize (Json.obj [("token", Json.str "tk2"),
        ("landed_at", Json.str "2021-01-01T00:00:00Z"),
        ("submitted_at", Json.str "2021-01-01T00:01:00Z"),
        ("metadata", Json.obj [("user_agent", Json.str "ua"), ("referer", Json.str "ref"),
          ("network_id", Json.str "nid")]),
        ("definition", Json.obj [("fields", Json.arr [])]),
        ("calculated", Json.obj [("score", Json.num 2)])])
      = .ok ⟨"tk2", none, "2021-01-01T00:00:00Z", "2021-01-01T00:01:00Z",
             ⟨"ua", none, "ref", "nid"⟩, some ⟨[]⟩, none, ⟨2⟩⟩
    ∧ Responses.deserialize (Json.obj [("page_count", Json.num 1), ("items", Json.arr [])])
      = .ok ⟨none, some 1, []⟩
    ∧ Responses.deserialize (Json.obj [("total_items", Json.num 3), ("items", Json.arr [])])
      = .ok ⟨some 3, none, []⟩ :=
  ⟨optional_fields_omitted_decode_to_none.1 [("token", Json.str "tk1"),
      ("landed_at", Json.str "2021-01-01T00:00:00Z"),
      ("submitted_at", Json.str "2021-01-01T00:01:00Z"),
      ("metadata", Json.obj [("user_agent", Json.str "ua"), ("referer", Json.str "ref"),
        ("network_id", Json.str "nid")]),
      ("answers", Json.arr []),
      ("calculated", Json.obj [("score", Json.num 2)])]
      "tk1" "2021-01-01T00:00:00Z" "2021-01-01T00:01:00Z" none
      ⟨"ua", none, "ref", "nid"⟩ ⟨2⟩ (some []) rfl rfl rfl rfl rfl rfl rfl rfl,
   optional_fields_omitted_decode_to_none.2.1 [("token", Json.str "tk2"),
      ("landed_at", Json.str "2021-01-01T00:00:00Z"),
      ("submitted_at", Json.str "2021-01-01T00:01:00Z"),
      ("metadata", Json.obj [("user_agent", Json.str "ua"), ("referer", Json.str "ref"),
        ("network_id", Json.str "nid")]),
      ("definition", Json.obj [("fields", Json.arr [])]),
      ("calculated", Json.obj [("score", Json.num 2)])]
      "tk2" "2021-01-01T00:00:00Z" "2021-01-01T00:01:00Z" none
      ⟨"ua", none, "ref", "nid"⟩ ⟨2⟩ (some ⟨[]⟩) rfl rfl rfl rfl rfl rfl rfl rfl,
   optional_fields_omitted_decode_to_none.2.2.1
      [("page_count", Json.num 1), ("items", Json.arr [])] (some 1) [] rfl rfl rfl,
   optional_fields_omitted_decode_to_none.2.2.2
      [("total_items", Json.num 3), ("items", Json.arr [])] (some 3) [] rfl rfl rfl⟩

/-- Inserting a binding for a different key anywhere in an object's
key/value list does not change the lookup of a key. -/
theorem lookup_middle_ne {q k : String} (h : q ≠ k) (v : Json)
    (l1 l2 : List (String × Json)) :
    (l1 ++ (k, v) :: l2).lookup q = (l1 ++ l2).lookup q := by
  induction l1 with
  | nil =>
    have hb : (q == k) = false := beq_eq_false_iff_ne.mpr h
    simp [List.lookup, hb]
  | cons p l1 ih =>
    obtain ⟨a, b⟩ := p
    simp only [List.cons_append, List.lookup]
    cases a == q <;> simp [ih]

/-- C7: decoding ignores unknown JSON keys — inserting a binding for a key
that none of the record types recognize, at the top level or inside any
nested record object, leaves every deserializer's result unchanged. One
conjunct per record type of the model; composing them covers unknown keys
at any nesting depth of a Paged Collection document. -/
theorem unknown_keys_are_ignored :
    (∀ (k : String) (v : Json) (l1 l2 : List (String × Json)),
      k ∉ ["total_items", "page_count", "items"] →
      Responses.deserialize (Json.obj (l1 ++ (k, v) :: l2))
        = Responses.deserialize (Json.obj (l1 ++ l2)))
    ∧ (∀ (k : String) (v : Json) (l1 l2 : List (String × Json)),
      k ∉ ["token", "response_id", "landed_at", "submitted_at", "metadata",
           "definition", "answers", "calculated"] →
      Response.deserialize (Json.obj (l1 ++ (k, v) :: l2))
        = Response.deserialize (Json.obj (l1 ++ l2)))
    ∧ (∀ (k : String) (v : Json) (l1 l2 : List (String × Json)),
      k ∉ ["user_agent", "platform", "referer", "network_id"] →
      Metadata.deserialize (Json.obj (l1 ++ (k, v) :: l2))
        = Metadata.deserialize (Json.obj (l1 ++ l2)))
    ∧ (∀ (k : String) (v : Json) (l1 l2 : List (String × Json)),
      k ∉ ["fields"] →
      Definition.deserialize (Json.obj (l1 ++ (k, v) :: l2))
        = Definition.deserialize (Json.obj (l1 ++ l2)))
    ∧ (∀ (k : String) (v : Json) (l1 l2 : List (String × Json)),
      k ∉ ["id", "_type", "title", "description"] →
      Field.deserialize (Json.obj (l1 ++ (k, v) :: l2))
        = Field.deserialize (Json.obj (l1 ++ l2)))
    ∧ (∀ (k : String) (v : Json) (l1 l2 : List (String × Json)),
      k ∉ ["field", "type", "choice", "choices", "date", "email", "file_url",
           "number", "boolean", "text", "url", "payment", "phone_number"] →
      Answer.deserialize (Json.obj (l1 ++ (k, v) :: l2))
        = Answer.deserialize (Json.obj (l1 ++ l2)))
    ∧ (∀ (k : String) (v : Json) (l1 l2 : List (String × Json)),
      k ∉ ["id", "type", "ref", "title"] →
      AnswerField.deserialize (Json.obj (l1 ++ (k, v) :: l2))
        = AnswerField.deserialize (Json.obj (l1 ++ l2)))
    ∧ (∀ (k : String) (v : Json) (l1 l2 : List (String × Json)),
      k ∉ ["label", "other"] →
      Choice.deserialize (Json.obj (l1 ++ (k, v) :: l2))
        = Choice.deserialize (Json.obj (l1 ++ l2)))
    ∧ (∀ (k : String) (v : Json) (l1 l2 : List (String × Json)),
      k ∉ ["labels", "other"] →
      Choices.deserialize (Json.obj (l1 ++ (k, v) :: l2))
        = Choices.deserialize (Json.obj (l1 ++ l2)))
    ∧ (∀ (k : String) (v : Json) (l1 l2 : List (String × Json)),
      k ∉ ["amount", "last4", "name"] →
      Payment.deserialize (Json.obj (l1 ++ (k, v) :: l2))
        = Payment.deserialize (Json.obj (l1 ++ l2)))
    ∧ (∀ (k : String) (v : Json) (l1 l2 : List (String × Json)),
      k ∉ ["score"] →
      Calculated.deserialize (Json.obj (l1 ++ (k, v) :: l2))
        = Calculated.deserialize (Json.obj (l1 ++ l2))) := by
  refine ⟨?_, ?_, ?_, ?_, ?_, ?_, ?_, ?_, ?_, ?_, ?_⟩ <;>
      intro k v l1 l2 hk <;>
      simp only [List.mem_cons, List.not_mem_nil, or_false, not_or] at hk
  · obtain ⟨h1, h2, h3⟩ := hk
    simp only [Responses.deserialize, reqField, optField,
      lookup_middle_ne (Ne.symm h1) v l1 l2, lookup_middle_ne (Ne.symm h2) v l1 l2,
      lookup_middle_ne (Ne.symm h3) v l1 l2]
  · obtain ⟨h1, h2, h3, h4, h5, h6, h7, h8⟩ := hk
    simp only [Response.deserialize, reqField, optField,
      lookup_middle_ne (Ne.symm h1) v l1 l2, lookup_middle_ne (Ne.symm h2) v l1 l2,
      lookup_middle_ne (Ne.symm h3) v l1 l2, lookup_middle_ne (Ne.symm h4) v l1 l2,
      lookup_middle_ne (Ne.symm h5) v l1 l2, lookup_middle_ne (Ne.symm h6) v l1 l2,
      lookup_middle_ne (Ne.symm h7) v l1 l2, lookup_middle_ne (Ne.symm h8) v l1 l2]
  · obtain ⟨h1, h2, h3, h4⟩ := hk
    simp only [Metadata.deserialize, reqField, optField,
      lookup_middle_ne (Ne.symm h1) v l1 l2, lookup_middle_ne (Ne.symm h2) v l1 l2,
      lookup_middle_ne (Ne.symm h3) v l1 l2, lookup_middle_ne (Ne.symm h4) v l1 l2]
  · simp only [Definition.deserialize, reqField,
      lookup_middle_ne (Ne.symm hk) v l1 l2]
  · obtain ⟨h1, h2, h3, h4⟩ := hk
    simp only [Field.deserialize, reqField,
      lookup_middle_ne (Ne.symm h1) v l1 l2, lookup_middle_ne (Ne.symm h2) v l1 l2,
      lookup_middle_ne (Ne.symm h3) v l1 l2, lookup_middle_ne (Ne.symm h4) v l1 l2]
  · obtain ⟨h1, h2, h3, h4, h5, h6, h7, h8, h9, h10, h11, h12, h13⟩ := hk
    simp only [Answer.deserialize, reqField, optField,
      lookup_middle_ne (Ne.symm h1) v l1 l2, lookup_middle_ne (Ne.symm h2) v l1 l2,
      lookup_middle_ne (Ne.symm h3) v l1 l2, lookup_middle_ne (Ne.symm h4) v l1 l2,
      lookup_middle_ne (Ne.symm h5) v l1 l2, lookup_middle_ne (Ne.symm h6) v l1 l2,
      lookup_middle_ne (Ne.symm h7) v l1 l2, lookup_middle_ne (Ne.symm h8) v l1 l2,
      lookup_middle_ne (Ne.symm h9) v l1 l2, lookup_middle_ne (Ne.symm h10) v l1 l2,
      lookup_middle_ne (Ne.symm h11) v l1 l2, lookup_middle_ne (Ne.symm h12) v l1 l2,
      lookup_middle_ne (Ne.symm h13) v l1 l2]
  · obtain ⟨h1, h2, h3, h4⟩ := hk
    simp only [AnswerField.deserialize, reqField, optField,
      lookup_middle_ne (Ne.symm h1) v l1 l2, lookup_middle_ne (Ne.symm h2) v l1 l2,
      lookup_middle_ne (Ne.symm h3) v l1 l2, lookup_middle_ne (Ne.symm h4) v l1 l2]
  · obtain ⟨h1, h2⟩ := hk
    simp only [Choice.deserialize, reqField, optField,
      lookup_middle_ne (Ne.symm h1) v l1 l2, lookup_middle_ne (Ne.symm h2) v l1 l2]
  · obtain ⟨h1, h2⟩ := hk
    simp only [Choices.deserialize, reqField, optField,
      lookup_middle_ne (Ne.symm h1) v l1 l2, lookup_middle_ne (Ne.symm h2) v l1 l2]
  · obtain ⟨h1, h2, h3⟩ := hk
    simp only [Payment.deserialize, reqField,
      lookup_middle_ne (Ne.symm h1) v l1 l2, lookup_middle_ne (Ne.symm h2) v l1 l2,
      lookup_middle_ne (Ne.symm h3) v l1 l2]
  · simp only [Calculated.deserialize, reqField,
      lookup_middle_ne (Ne.symm hk) v l1 l2]

/-- Witness for C7: adding an unrecognized key to a concrete Paged
Collection object (top level) and to a concrete nested record leaves the
decode results unchanged. -/
theorem unknown_keys_are_ignored_witness :
    Responses.deserialize (Json.obj [("new_feature", Json.bool true), ("items", Json.arr [])])
      = Responses.deserialize (Json.obj [("items", Json.arr [])])
    ∧ Metadata.deserialize (Json.obj [("user_agent", Json.str "ua"),
        ("browser", Json.str "x"), ("referer", Json.str "r"), ("network_id", Json.str "n")])
      = Metadata.deserialize (Json.obj [("user_agent", Json.str "ua"),
        ("referer", Json.str "r"), ("network_id", Json.str "n")]) :=
  ⟨unknown_keys_are_ignored.1 "new_feature" (Json.bool true) [] [("items", Json.arr [])]
      (by decide),
   unknown_keys_are_ignored.2.2.1 "browser" (Json.str "x") [("user_agent", Json.str "ua")]
      [("referer", Json.str "r"), ("network_id", Json.str "n")] (by decide)⟩

/-! Order and length preservation of element-wise array decoding. -/

theorem decodeList_ok_length (d : Json → Except String α) :
    ∀ (es : List Json) (as : List α), decodeList d es = .ok as → as.length = es.length := by
  intro es
  induction es with
  | nil =>
    intro as h
    unfold decodeList at h
    simp only [Except.ok.injEq] at h
    subst h
    rfl
  | cons j js ih =>
    intro as h
    unfold decodeList at h
    cases hd : d j with
    | error e => rw [hd] at h; simp at h
    | ok a =>
      rw [hd] at h
      cases hds : decodeList d js with
      | error e => rw [hds] at h; simp at h
      | ok bs =>
        rw [hds] at h
        simp only [Except.ok.injEq] at h
        subst h
        simp [ih bs hds]

theorem decodeList_ok_get (d : Json → Except String α) :
    ∀ (es : List Json) (as : List α), decodeList d es = .ok as →
      ∀ (i : Nat) (h1 : i < es.length) (h2 : i < as.length),
        d (es.get ⟨i, h1⟩) = .ok (as.get ⟨i, h2⟩) := by
  intro es
  induction es with
  | nil =>
    intro as h i h1 h2
    exact absurd h1 (by simp)
  | cons j js ih =>
    intro as h i h1 h2
    unfold decodeList at h
    cases hd : d j with
    | error e => rw [hd] at h; simp at h
    | ok a =>
      rw [hd] at h
      cases hds : decodeList d js with
      | error e => rw [hds] at h; simp at h
      | ok bs =>
        rw [hds] at h
        simp only [Except.ok.injEq] at h
        subst h
        cases i with
        | zero => simpa using hd
        | succ n =>
          simpa using ih bs hds n (by simpa using h1) (by simpa using h2)

/-- C8: a Paged Collection document whose fields decode — counts either
absent or in range, `items` a JSON array whose elements each decode —
deserializes successfully, and the resulting `items` sequence has the same
length as the JSON array and carries, position by position, the decode of
the corresponding array element (order preserved). -/
theorem paged_collection_preserves_items (m : List (String × Json)) (es : List Json)
    (ti pc : Option Nat) (rs : List Response)
    (hti : optField m "total_items" decodeU16 = .ok ti)
    (hpc : optField m "page_count" decodeU8 = .ok pc)
    (hitems : m.lookup "items" = some (Json.arr es))
    (hes : decodeList Response.deserialize es = .ok rs) :
    Responses.deserialize (Json.obj m) = .ok ⟨ti, pc, rs⟩
    ∧ rs.length = es.length
    ∧ ∀ (i : Nat) (h1 : i < es.length) (h2 : i < rs.length),
        Response.deserialize (es.get ⟨i, h1⟩) = .ok (rs.get ⟨i, h2⟩) := by
  refine ⟨?_, decodeList_ok_length _ es rs hes, decodeList_ok_get _ es rs hes⟩
  simp only [Responses.deserialize, hti, hpc, reqField_some hitems, decodeArr,
    hes, andThen_ok]

/-- A concrete record document used to witness C8. -/
def sampleRecordJson1 : Json :=
  Json.obj [("token", Json.str "a"), ("landed_at", Json.str "L1"),
    ("submitted_at", Json.str "S1"),
    ("metadata", Json.obj [("user_agent", Json.str "u"), ("referer", Json.str "r"),
      ("network_id", Json.str "n")]),
    ("calculated", Json.obj [("score", Json.num 1)])]

/-- A second concrete record document used to witness C8. -/
def sampleRecordJson2 : Json :=
  Json.obj [("token", Json.str "b"), ("landed_at", Json.str "L2"),
    ("submitted_at", Json.str "S2"),
    ("metadata", Json.obj [("user_agent", Json.str "u"), ("referer", Json.str "r"),
      ("network_id", Json.str "n")]),
    ("calculated", Json.obj [("score", Json.num 2)])]

/-- The decode of `sampleRecordJson1`. -/
def sampleRecord1 : Response :=
  ⟨"a", none, "L1", "S1", ⟨"u", none, "r", "n"⟩, none, none, ⟨1⟩⟩

/-- The decode of `sampleRecordJson2`. -/
def sampleRecord2 : Response :=
  ⟨"b", none, "L2", "S2", ⟨"u", none, "r", "n"⟩, none, none, ⟨2⟩⟩

/-- Witness for C8: a concrete two-record document decodes to a
two-element `items` list whose first element is the decode of the first
JSON record. -/
theorem paged_collection_preserves_items_witness :
    Responses.deserialize (Json.obj [("total_items", Json.num 2),
        ("items", Json.arr [sampleRecordJson1, sampleRecordJson2])])
      = .ok ⟨some 2, none, [sampleRecord1, sampleRecord2]⟩
    ∧ ([sampleRecord1, sampleRecord2] : List Response).length
        = ([sampleRecordJson1, sampleRecordJson2] : List Json).length
    ∧ Response.deserialize sampleRecordJson1 = .ok sampleRecord1 :=
  ⟨(paged_collection_preserves_items
      [("total_items", Json.num 2), ("items", Json.arr [sampleRecordJson1, sampleRecordJson2])]
      [sampleRecordJson1, sampleRecordJson2] (some 2) none [sampleRecord1, sampleRecord2]
      rfl rfl rfl rfl).1,
   (paged_collection_preserves_items
      [("total_items", Json.num 2), ("items", Json.arr [sampleRecordJson1, sampleRecordJson2])]
      [sampleRecordJson1, sampleRecordJson2] (some 2) none [sampleRecord1, sampleRecord2]
      rfl rfl rfl rfl).2.1,
   (paged_collection_preserves_items
      [("total_items", Json.num 2), ("items", Json.arr [sampleRecordJson1, sampleRecordJson2])]
      [sampleRecordJson1, sampleRecordJson2] (some 2) none [sampleRecord1, sampleRecord2]
      rfl rfl rfl rfl).2.2 0 (by decide) (by decide)⟩

/-- C9: decoding a Paged Collection fails when `total_items` is a number
outside `0..=65535` or (the fields before it decoding) `page_count` is a
number outside `0..=255`: the counts are decoded as `u16` and `u8`. -/
theorem counts_are_range_checked :
    (∀ (m : List (String × Json)) (n : Int),
      m.lookup "total_items" = some (Json.num n) → (n < 0 ∨ 65535 < n) →
      Responses.deserialize (Json.obj m) = .error "invalid value: out of range of u16")
    ∧ (∀ (m : List (String × Json)) (n : Int) (ti : Option Nat),
      optField m "total_items" decodeU16 = .ok ti →
      m.lookup "page_count" = some (Json.num n) → (n < 0 ∨ 255 < n) →
      Responses.deserialize (Json.obj m) = .error "invalid value: out of range of u8") := by
  constructor
  · intro m n hlk hrange
    have hneg : ¬(0 ≤ n ∧ n ≤ 65535) := by omega
    simp only [Responses.deserialize, optField, hlk, decodeU16, if_neg hneg, andThen_error]
  · intro m n ti hti hlk hrange
    have hneg : ¬(0 ≤ n ∧ n ≤ 255) := by omega
    simp only [Responses.deserialize, hti, andThen_ok]
    simp only [optField, hlk, decodeU8, if_neg hneg, andThen_error]

/-- Witness for C9: `total_items` of 65536 and `page_count` of 256 are
rejected. -/
theorem counts_are_range_checked_witness :
    Responses.deserialize (Json.obj [("total_items", Json.num 65536)])
      = .error "invalid value: out of range of u16"
    ∧ Responses.deserialize (Json.obj [("page_count", Json.num 256)])
      = .error "invalid value: out of range of u8" :=
  ⟨counts_are_range_checked.1 [("total_items", Json.num 65536)] 65536 rfl
      (Or.inr (by decide)),
   counts_are_range_checked.2 [("page_count", Json.num 256)] 256 none rfl rfl
      (Or.inr (by decide))⟩

end TypeformRs
